import Mathlib

/-!
Verification of the `fijjas/js-experiments` repository against its
natural-language specification.

The development shallowly embeds the parts of the repository's scripts that
the claims are about:

* the IEEE-754 NaN-boxing demo (`src/unnamed/part_000`, class `NaN_Value`):
  the 8-byte buffer is modelled as a natural number below `2^64`; writing
  the JavaScript `NaN` literal through the `Float64Array` view stores the
  engine's canonical quiet NaN `0x7FF8000000000000` (the file's own comment
  prints this pattern: 12 one bits followed by 51 zero bits);
* the retrocausal-telegram experiment (`src/unnamed/part_001`): its startup
  configuration check, its `getUpdates` polling loop (`runExperiment`,
  lines 181-215) and its top-level promise `.catch` handler;
* the micro-benchmark harnesses: each `bench` function is translated into
  the sequence of observable events it performs (calls to the benchmarked
  closure, readings of the high-resolution timer, printing of the result
  row), together with a clock semantics that derives the elapsed time a
  given trace measures;
* a per-script fact table for the repository-level claims (which scripts
  read environment variables, perform network I/O, use async/await, set an
  explicit exit code, or install a rejection handler).
-/

set_option maxRecDepth 8192

/-! ## The NaN-boxing demo (src/unnamed/part_000) -/

/-- Bit pattern stored by `this.float64[0] = NaN` (line 25): the engine's
canonical quiet NaN.  The demo's own comment (line 24) shows this "zero"
value as `111111111111` followed by 51 zero bits. -/
def canonicalNaNBits : Nat := 0x7FF8000000000000

/-- The `NaN_Value` object of `src/unnamed/part_000` lines 17-48: an 8-byte
`ArrayBuffer` viewed both as a float64 and as a signed 64-bit integer.  The
buffer contents are modelled as the natural number below `2^64` whose binary
expansion is the buffer's bits. -/
structure NaN_Value where
  buf : Nat
deriving DecidableEq, Repr

/-- The constructor (lines 18-28): store canonical NaN, then
`this.int64[0] |= BigInt(num)`; the 64-bit store truncates modulo `2^64`. -/
def NaN_Value.construct (num : Nat) : NaN_Value :=
  ⟨(canonicalNaNBits ||| num) % 2 ^ 64⟩

/-- `valueOf()` (lines 30-32) returns `this.float64[0]`: the float whose
IEEE-754 bit pattern is the buffer.  We model the returned float by its
bit pattern. -/
def NaN_Value.valueOfBits (v : NaN_Value) : Nat :=
  v.buf

/-- `decode()` (lines 38-41): `Number(this.int64[0] & 0x0007FFFFn)`. -/
def NaN_Value.decode (v : NaN_Value) : Nat :=
  v.buf &&& 0x7FFFF

/-- A float64 bit pattern denotes NaN iff its exponent field (bits 52-62)
is all ones and its mantissa field (bits 0-51) is nonzero (IEEE 754). -/
def float64IsNaN (bits : Nat) : Bool :=
  ((bits >>> 52) &&& 0x7FF == 0x7FF) && !(bits &&& (2 ^ 52 - 1) == 0)

/-- A high part shifted past `k` bits ors with a `k`-bit low part by plain
addition. -/
theorem lor_high_low (a b k : Nat) (hb : b < 2 ^ k) :
    (2 ^ k * a) ||| b = 2 ^ k * a + b := by
  apply Nat.eq_of_testBit_eq
  intro i
  rw [Nat.testBit_or, Nat.testBit_mul_pow_two, Nat.testBit_mul_pow_two_add a hb i]
  by_cases h : i < k
  · simp [h, Nat.not_le_of_lt h]
  · have hbi : Nat.testBit b i = false :=
      Nat.testBit_lt_two_pow
        (lt_of_lt_of_le hb (Nat.pow_le_pow_right (by norm_num) (Nat.le_of_not_lt h)))
    simp [h, Nat.le_of_not_lt h, hbi]

/-- The canonical NaN pattern, written as its (zero) low 51 bits below its
12 high bits. -/
theorem canonicalNaNBits_eq : canonicalNaNBits = 2 ^ 51 * 4095 := by decide

/-- For payloads below `2^51` the constructor's `|=` lands the payload in the
zero low bits of the canonical NaN, so the stored buffer is the plain sum. -/
theorem construct_buf (num : Nat) (h : num < 2 ^ 51) :
    (NaN_Value.construct num).buf = 2 ^ 51 * 4095 + num := by
  show (canonicalNaNBits ||| num) % 2 ^ 64 = 2 ^ 51 * 4095 + num
  rw [canonicalNaNBits_eq, lor_high_low 4095 num 51 h]
  exact Nat.mod_eq_of_lt (by omega)

/-- C8: for every `num < 2^51`, `(new NaN_Value(num)).decode()` is
`num mod 2^19`, and the construct-then-decode round trip is the identity
exactly when `num < 524288`; larger payloads are silently truncated. -/
theorem decode_construct_eq_mod (num : Nat) (h : num < 2 ^ 51) :
    (NaN_Value.construct num).decode = num % 2 ^ 19 ∧
      ((NaN_Value.construct num).decode = num ↔ num < 524288) := by
  have hd : (NaN_Value.construct num).decode = num % 2 ^ 19 := by
    show (NaN_Value.construct num).buf &&& 0x7FFFF = num % 2 ^ 19
    rw [construct_buf num h, show (0x7FFFF : Nat) = 2 ^ 19 - 1 by norm_num,
      Nat.and_pow_two_sub_one_eq_mod]
    omega
  refine ⟨hd, ?_⟩
  rw [hd]
  omega

/-- C8 witness: the demo's payload 1242010 (line 92) is below `2^51`, decodes
to `1242010 mod 2^19 = 193434`, and round-trips iff it is below 524288
(it is not). -/
theorem decode_construct_eq_mod_witness :
    1242010 < 2 ^ 51 ∧
      ((NaN_Value.construct 1242010).decode = 1242010 % 2 ^ 19 ∧
        ((NaN_Value.construct 1242010).decode = 1242010 ↔ 1242010 < 524288)) :=
  ⟨by decide, decode_construct_eq_mod 1242010 (by decide)⟩

/-- C9: for every `num < 2^51`, the value stored by the constructor still has
all exponent bits and the quiet bit set, so `valueOf()` returns a NaN. -/
theorem construct_valueOf_isNaN (num : Nat) (h : num < 2 ^ 51) :
    float64IsNaN (NaN_Value.construct num).valueOfBits = true := by
  have hbuf : (NaN_Value.construct num).valueOfBits = 2 ^ 51 * 4095 + num :=
    construct_buf num h
  have hdiv : (NaN_Value.construct num).valueOfBits >>> 52 = 2047 := by
    rw [Nat.shiftRight_eq_div_pow, hbuf]; omega
  have hmod : (NaN_Value.construct num).valueOfBits &&& (2 ^ 52 - 1) = 2 ^ 51 + num := by
    rw [Nat.and_pow_two_sub_one_eq_mod, hbuf]; omega
  simp only [float64IsNaN, hdiv, hmod, Bool.and_eq_true, beq_iff_eq,
    Bool.not_eq_true', beq_eq_false_iff_ne]
  exact ⟨by norm_num, by positivity⟩

/-- C9 witness: the demo's own first input 555 (line 74) yields a buffer
whose float64 reading is NaN. -/
theorem construct_valueOf_isNaN_witness :
    555 < 2 ^ 51 ∧ float64IsNaN (NaN_Value.construct 555).valueOfBits = true :=
  ⟨by decide, construct_valueOf_isNaN 555 (by decide)⟩

/-- C7 counterexample: the NaN demo does contain an encode-then-decode
round-trip identity amenable to property-based testing; here it is checked
by evaluation on the 1024 smallest payloads. -/
theorem nan_construct_decode_roundTrip_on_range :
    ((List.range 1024).all fun n => (NaN_Value.construct n).decode == n) = true := by
  decide

/-- C7 amended: construct-then-decode on `NaN_Value` is the identity on the
whole payload domain `[0, 2^19)`, and fails to be the identity on every
payload in `[2^19, 2^51)` — a genuine round-trip law with a sharp boundary. -/
theorem nan_construct_decode_roundTrip_law (n : Nat) :
    (n < 2 ^ 19 → (NaN_Value.construct n).decode = n) ∧
      (2 ^ 19 ≤ n → n < 2 ^ 51 → (NaN_Value.construct n).decode ≠ n) := by
  constructor
  · intro h
    have := decode_construct_eq_mod n (lt_trans h (by norm_num))
    rw [this.1]
    omega
  · intro hge hlt
    rw [(decode_construct_eq_mod n hlt).1]
    omega

/-- C7 amended witness: payload 555 round-trips; the demo's payload 1242010
does not. -/
theorem nan_construct_decode_roundTrip_law_witness :
    (555 < 2 ^ 19 ∧ (NaN_Value.construct 555).decode = 555) ∧
      (2 ^ 19 ≤ 1242010 ∧ 1242010 < 2 ^ 51 ∧
        (NaN_Value.construct 1242010).decode ≠ 1242010) :=
  ⟨⟨by decide, (nan_construct_decode_roundTrip_law 555).1 (by decide)⟩,
    ⟨by decide, by decide,
      (nan_construct_decode_roundTrip_law 1242010).2 (by decide) (by decide)⟩⟩

/-! ## Per-script facts (the whole repository)

One record per executable script (the two markdown documents and the result
tables are not scripts).  Each field is read off the script's source:
`readsEnv` — reads `process.env`; `networkIO` — opens network connections
(`https.request`); `asyncAwait` — contains `async`/`await`; `explicitExit`
— calls `process.exit` with a failure code; `rejectionHandler` — attaches
`.catch` to its top-level promise. -/

structure Script where
  name : String
  readsEnv : Bool
  networkIO : Bool
  asyncAwait : Bool
  explicitExit : Bool
  rejectionHandler : Bool
deriving DecidableEq, Repr

/-- The repository's 32 executable scripts.  `unnamed/part_001` is the
retrocausal-telegram experiment: it reads `TELEGRAM_BOT_TOKEN` and
`TELEGRAM_CHAT_ID` (lines 27-28), calls `https.request` (line 46), uses
async/await, calls `process.exit(1)` (lines 32, 286) and attaches `.catch`
(line 284).  `v8-async-await/bench.js` and `v8-weakref/bench.js` end with
`main().catch(console.error)` (line 253 of each) and use async/await but
touch neither the environment nor the network.  `v8-async-await/bytecode.js`
uses async/await only.  Every other script has all five fields false. -/
def scripts : List Script :=
  [⟨"unnamed/part_000", false, false, false, false, false⟩,
   ⟨"unnamed/part_001 (retrocausal-telegram.js)", true, true, true, true, true⟩,
   ⟨"unnamed/part_002", false, false, false, false, false⟩,
   ⟨"unnamed/part_004", false, false, false, false, false⟩,
   ⟨"unnamed/part_005", false, false, false, false, false⟩,
   ⟨"unnamed/part_006", false, false, false, false, false⟩,
   ⟨"unnamed/part_008", false, false, false, false, false⟩,
   ⟨"unnamed/part_009", false, false, false, false, false⟩,
   ⟨"unnamed/part_010", false, false, false, false, false⟩,
   ⟨"unnamed/part_011", false, false, false, false, false⟩,
   ⟨"unnamed/part_012", false, false, false, false, false⟩,
   ⟨"v8-arrow-vs-function/this-binding-bytecode.js", false, false, false, false, false⟩,
   ⟨"v8-async-await/bench.js", false, false, true, false, true⟩,
   ⟨"v8-async-await/bytecode.js", false, false, true, false, false⟩,
   ⟨"v8-closure-scope/scope-chain.js", false, false, false, false, false⟩,
   ⟨"v8-const-opt/math.js", false, false, false, false, false⟩,
   ⟨"v8-generators/bench.js", false, false, false, false, false⟩,
   ⟨"v8-ic-transitions/ic-states.js", false, false, false, false, false⟩,
   ⟨"v8-loop-vs-array-methods/loop-bytecode.js", false, false, false, false, false⟩,
   ⟨"v8-loop-vs-array-methods/perf-test.js", false, false, false, false, false⟩,
   ⟨"v8-map-vs-object/bench.js", false, false, false, false, false⟩,
   ⟨"v8-object-iteration/bench.js", false, false, false, false, false⟩,
   ⟨"v8-object-iteration/bytecode.js", false, false, false, false, false⟩,
   ⟨"v8-optional-chaining/bytecode.js", false, false, false, false, false⟩,
   ⟨"v8-prototype-lookup/prototype-depth.js", false, false, false, false, false⟩,
   ⟨"v8-single-vs-multi-return/bench.js", false, false, false, false, false⟩,
   ⟨"v8-smi-deopt/deopt-trace.js", false, false, false, false, false⟩,
   ⟨"v8-try-catch/bytecode.js", false, false, false, false, false⟩,
   ⟨"v8-wasm/fibonacci-js.js", false, false, false, false, false⟩,
   ⟨"v8-weakref/bench.js", false, false, true, false, true⟩,
   ⟨"v8-weakref/bytecode.js", false, false, false, false, false⟩,
   ⟨"wheeler-delayed-choice/delayed-choice.js", false, false, false, false, false⟩]

/-- Name of the retrocausal-telegram script in the fact table. -/
def retroName : String := "unnamed/part_001 (retrocausal-telegram.js)"

/-! ## Startup configuration check and top-level catch handler
(src/unnamed/part_001) -/

/-- JavaScript truthiness of an environment variable: `undefined` and the
empty string are falsy. -/
def jsTruthy (v : Option String) : Bool :=
  match v with
  | none => false
  | some s => !(s == "")

/-- Lines 30-33: `if (!BOT_TOKEN || !CHAT_ID) { console.error(...);
process.exit(1); }`.  Returns the explicit exit code the script sets, if
any, as a function of the two environment variables. -/
def startupExitCode (botToken chatId : Option String) : Option Nat :=
  if !jsTruthy botToken || !jsTruthy chatId then some 1 else none

/-- Lines 284-287: `runExperiment().catch(err => { console.error('Error:',
err); process.exit(1); })`.  Given the settled run, returns the console
output of the handler and the explicit exit code it sets. -/
def retroCatchHandler : Except String Unit → List String × Option Nat
  | .ok _ => ([], none)
  | .error e => (["Error: " ++ e], some 1)

/-- Line 253 of `v8-async-await/bench.js` and of `v8-weakref/bench.js`:
`main().catch(console.error)` — the rejection is logged and consumed, and
the process then exits normally (no explicit exit code). -/
def mainCatchConsoleError : Except String Unit → List String
  | .ok _ => []
  | .error e => [e]

/-- C2 counterexample: the scripts that read the bot-token/chat-id
environment variables and do network I/O number exactly one (the
retrocausal-telegram experiment), not two: `wheeler-delayed-choice/
delayed-choice.js` is a self-contained simulation with no environment reads
and no network I/O. -/
theorem env_network_scripts_are_one_not_two :
    ((scripts.filter fun s => s.readsEnv && s.networkIO).map Script.name)
        = [retroName] ∧
      (scripts.countP fun s => s.readsEnv && s.networkIO) = 1 ∧
      (scripts.filter fun s =>
        s.name == "wheeler-delayed-choice/delayed-choice.js").all
          (fun s => !s.readsEnv && !s.networkIO) = true := by
  decide

/-- C2 amended: exactly one script — the retrocausal-telegram experiment —
reads the two environment variables and uses async/await to poll the
chat-bot messaging API over HTTPS; every other script reads no environment
variables and performs no network I/O, so that API is still the
repository's only external protocol surface. -/
theorem single_script_external_interface :
    ((scripts.filter fun s => s.readsEnv || s.networkIO).map Script.name)
        = [retroName] ∧
      (scripts.filter fun s => s.readsEnv || s.networkIO).all
        Script.asyncAwait = true ∧
      scripts.all
        (fun s => s.name == retroName || (!s.readsEnv && !s.networkIO)) = true := by
  decide

/-- C4 counterexample: the retrocausal-telegram script explicitly sets a
failure exit code in response to missing configuration — with both
environment variables unset (or empty) it calls `process.exit(1)` — and it
is the one script whose source calls `process.exit`. -/
theorem retro_missing_config_exits_one :
    startupExitCode none none = some 1 ∧
      startupExitCode (some "") (some "") = some 1 ∧
      ((scripts.filter Script.explicitExit).map Script.name) = [retroName] := by
  decide

/-- C4 amended: every script except the retrocausal-telegram experiment
follows the default exit discipline; that one script explicitly exits with
code 1 when either environment variable is missing or empty (and only
then does its startup check exit). -/
theorem exit_code_discipline_amended :
    startupExitCode none (some "c") = some 1 ∧
      startupExitCode (some "t") none = some 1 ∧
      startupExitCode (some "") (some "c") = some 1 ∧
      startupExitCode (some "t") (some "c") = none ∧
      scripts.all (fun s => s.name == retroName || !s.explicitExit) = true := by
  decide

/-- C5 counterexample: three scripts install handlers that intercept the
error of a failed run before the process ends.  The retrocausal-telegram
`.catch` handler logs the error and exits with code 1; the async/await and
weakref benches log the rejection via `console.error` and consume it. -/
theorem retro_catch_handler_intercepts :
    retroCatchHandler (.error "ETIMEDOUT") = (["Error: ETIMEDOUT"], some 1) ∧
      mainCatchConsoleError (.error "ETIMEDOUT") = ["ETIMEDOUT"] ∧
      ((scripts.filter Script.rejectionHandler).map Script.name)
        = [retroName, "v8-async-await/bench.js", "v8-weakref/bench.js"] := by
  decide

/-- C5 amended: every script except the retrocausal-telegram experiment,
`v8-async-await/bench.js` and `v8-weakref/bench.js` relies on default
exception propagation; those three attach `.catch` to their top-level
promise — the first logs and exits 1, the other two log via
`console.error` and let the process end normally. -/
theorem rejection_handlers_amended :
    scripts.all
      (fun s => (s.name == retroName || s.name == "v8-async-await/bench.js"
          || s.name == "v8-weakref/bench.js") || !s.rejectionHandler) = true ∧
      retroCatchHandler (.ok ()) = ([], none) ∧
      retroCatchHandler (.error "boom") = (["Error: boom"], some 1) ∧
      mainCatchConsoleError (.error "boom") = ["boom"] := by
  decide

/-! ## The retrocausal-telegram polling loop (src/unnamed/part_001,
`runExperiment` lines 173-220)

The loop waits for the delayed choice: every `getUpdates` call returns a
batch of updates; a text message from the configured chat sets `choice` to
`'wave'` or `'particle'`; any other text from that chat is answered with a
corrective prompt; the loop gives up after `maxAttempts = 40` polls. -/

structure TgChat where
  id : Int
deriving DecidableEq, Repr

structure TgMessage where
  chat : Option TgChat
  text : Option String
deriving DecidableEq, Repr

structure TgUpdate where
  update_id : Nat
  message : Option TgMessage
deriving DecidableEq, Repr

/-- The JSON object `getUpdates` resolves to: `{ ok, result }`. -/
structure UpdatesResp where
  ok : Bool
  result : List TgUpdate
deriving DecidableEq, Repr

/-- The loop's mutable variables (`offset`, `choice`, `attempts`), plus the
list of messages sent through `sendMessage` while waiting. -/
structure PollState where
  offset : Nat
  choice : Option String
  attempts : Nat
  sent : List String
deriving DecidableEq, Repr

/-- The corrective prompt of line 204. -/
def promptText : String := "Отправь *wave* (волна) или *particle* (частица)"

/-- `msg.text.toLowerCase().trim()` (line 197), as an executable function
on the character list (case folding modelled on the ASCII range; the
compared literals are already lower case). -/
def jsLowerTrim (s : String) : String :=
  ⟨(((s.data.map Char.toLower).dropWhile Char.isWhitespace).reverse.dropWhile
      Char.isWhitespace).reverse⟩

/-- The body of the inner `for` loop (lines 191-207): advance the offset
past this update; if it carries a message whose chat id, converted to a
string, equals `CHAT_ID` and which has a text, lower-case and trim the
text and either record the choice or send the corrective prompt. -/
def processUpdate (chatId : String) (st : PollState) (u : TgUpdate) : PollState :=
  let st1 := { st with offset := u.update_id + 1 }
  match u.message with
  | none => st1
  | some m =>
    match m.chat, m.text with
    | some c, some t =>
      if toString c.id == chatId then
        let text := jsLowerTrim t
        if text == "wave" || text == "волна" then
          { st1 with choice := some "wave" }
        else if text == "particle" || text == "частица" then
          { st1 with choice := some "particle" }
        else
          { st1 with sent := st1.sent ++ [promptText] }
      else st1
    | some _, none => st1
    | none, _ => st1

/-- Line 183: `var maxAttempts = 40; // 40 * 30s = 20 minutes max wait`. -/
def maxAttempts : Nat := 40

/-- The `while (choice === null && attempts < maxAttempts)` loop of lines
185-209, with the remaining number of allowed attempts as fuel: each
iteration increments `attempts`, performs one `getUpdates` call (the
environment `env` maps the attempt number to the response it returns) and,
when the response is `ok`, folds the inner loop over the returned batch. -/
def pollAux (chatId : String) (env : Nat → UpdatesResp) :
    Nat → PollState → PollState
  | 0, st => st
  | fuel + 1, st =>
    if st.choice = none then
      let st1 := { st with attempts := st.attempts + 1 }
      let resp := env st1.attempts
      let st2 := if resp.ok then resp.result.foldl (processUpdate chatId) st1 else st1
      pollAux chatId env fuel st2
    else st

/-- Loop state on entry (lines 181-182): no choice, no attempts, the offset
computed from the initial `getUpdates` probe. -/
def initialPollState (offset0 : Nat) : PollState :=
  ⟨offset0, none, 0, []⟩

/-- The whole wait phase of `runExperiment`. -/
def runWaitLoop (chatId : String) (env : Nat → UpdatesResp) (offset0 : Nat) :
    PollState :=
  pollAux chatId env maxAttempts (initialPollState offset0)

/-- What follows the loop (lines 211-220): `choice === null` takes the
timeout branch, otherwise the run continues with the chosen branch. -/
inductive RunOutcome where
  | timeout
  | chosen (c : String)
deriving DecidableEq, Repr

/-- Dispatch after the wait loop (line 211). -/
def afterWait (st : PollState) : RunOutcome :=
  match st.choice with
  | none => RunOutcome.timeout
  | some c => RunOutcome.chosen c

/-- An update can set `choice` only if it carries a message with a chat
whose id converts to `CHAT_ID` and with a text (the guard of line 196). -/
def eligible (chatId : String) (u : TgUpdate) : Bool :=
  match u.message with
  | some m =>
    (match m.chat with
     | some c => toString c.id == chatId
     | none => false) && m.text.isSome
  | none => false

/-- `processUpdate` never touches `attempts`. -/
theorem processUpdate_attempts (chatId : String) (st : PollState) (u : TgUpdate) :
    (processUpdate chatId st u).attempts = st.attempts := by
  obtain ⟨uid, msg⟩ := u
  rcases msg with _ | ⟨mc, mt⟩
  · rfl
  · rcases mc with _ | c <;> rcases mt with _ | t
    · rfl
    · rfl
    · rfl
    · simp only [processUpdate]
      split_ifs <;> rfl

/-- Neither does the inner `for` loop. -/
theorem foldl_processUpdate_attempts (chatId : String) (us : List TgUpdate)
    (st : PollState) :
    (us.foldl (processUpdate chatId) st).attempts = st.attempts := by
  induction us generalizing st with
  | nil => rfl
  | cons u us ih => rw [List.foldl_cons, ih, processUpdate_attempts]

/-- Each loop iteration increments `attempts` exactly once, so the loop
performs at most `fuel` more attempts. -/
theorem pollAux_attempts_le (chatId : String) (env : Nat → UpdatesResp)
    (fuel : Nat) (st : PollState) :
    (pollAux chatId env fuel st).attempts ≤ st.attempts + fuel := by
  induction fuel generalizing st with
  | zero => simp [pollAux]
  | succ f ih =>
    rw [pollAux]
    split
    · refine le_trans (ih _) ?_
      split
      · rw [foldl_processUpdate_attempts]
        show st.attempts + 1 + f ≤ st.attempts + (f + 1)
        omega
      · show st.attempts + 1 + f ≤ st.attempts + (f + 1)
        omega
    · omega

/-- One update either leaves `choice` alone or sets one of the two
literals. -/
theorem processUpdate_choice (chatId : String) (st : PollState) (u : TgUpdate) :
    (processUpdate chatId st u).choice = st.choice ∨
      (processUpdate chatId st u).choice = some "wave" ∨
      (processUpdate chatId st u).choice = some "particle" := by
  obtain ⟨uid, msg⟩ := u
  rcases msg with _ | ⟨mc, mt⟩
  · left; rfl
  · rcases mc with _ | c <;> rcases mt with _ | t
    · left; rfl
    · left; rfl
    · left; rfl
    · simp only [processUpdate]
      split_ifs <;>
        first
          | (left; rfl)
          | (right; left; rfl)
          | (right; right; rfl)

/-- The batch fold preserves the `choice` trichotomy. -/
theorem foldl_processUpdate_choice (chatId : String) (us : List TgUpdate)
    (st : PollState)
    (h : st.choice = none ∨ st.choice = some "wave" ∨ st.choice = some "particle") :
    (us.foldl (processUpdate chatId) st).choice = none ∨
      (us.foldl (processUpdate chatId) st).choice = some "wave" ∨
      (us.foldl (processUpdate chatId) st).choice = some "particle" := by
  induction us generalizing st with
  | nil => exact h
  | cons u us ih =>
    rw [List.foldl_cons]
    refine ih _ ?_
    rcases processUpdate_choice chatId st u with h1 | h1 | h1
    · rw [h1]; exact h
    · right; left; exact h1
    · right; right; exact h1

/-- So does the whole wait loop. -/
theorem pollAux_choice (chatId : String) (env : Nat → UpdatesResp)
    (fuel : Nat) (st : PollState)
    (h : st.choice = none ∨ st.choice = some "wave" ∨ st.choice = some "particle") :
    (pollAux chatId env fuel st).choice = none ∨
      (pollAux chatId env fuel st).choice = some "wave" ∨
      (pollAux chatId env fuel st).choice = some "particle" := by
  induction fuel generalizing st with
  | zero => exact h
  | succ f ih =>
    rw [pollAux]
    split
    · apply ih
      split
      · exact foldl_processUpdate_choice chatId _ _ (by left; assumption)
      · left; assumption
    · exact h

/-- An ineligible update (wrong chat, no message, or no text) leaves
`choice` untouched. -/
theorem processUpdate_choice_of_not_eligible (chatId : String) (st : PollState)
    (u : TgUpdate) (h : eligible chatId u = false) :
    (processUpdate chatId st u).choice = st.choice := by
  obtain ⟨uid, msg⟩ := u
  rcases msg with _ | ⟨mc, mt⟩
  · rfl
  · rcases mc with _ | c <;> rcases mt with _ | t
    · rfl
    · rfl
    · rfl
    · simp only [eligible, Option.isSome_some, Bool.and_true] at h
      simp [processUpdate, h]

/-- A batch with no eligible update leaves `choice` untouched. -/
theorem foldl_processUpdate_choice_of_not_eligible (chatId : String)
    (us : List TgUpdate) (st : PollState)
    (h : ∀ u ∈ us, eligible chatId u = false) :
    (us.foldl (processUpdate chatId) st).choice = st.choice := by
  induction us generalizing st with
  | nil => rfl
  | cons u us ih =>
    rw [List.foldl_cons, ih _ (fun v hv => h v (List.mem_cons_of_mem _ hv)),
      processUpdate_choice_of_not_eligible chatId st u (h u (List.mem_cons_self _ _))]

/-- If no response ever carries an eligible update, the loop never sets
`choice`. -/
theorem pollAux_choice_of_not_eligible (chatId : String) (env : Nat → UpdatesResp)
    (fuel : Nat) (st : PollState)
    (h : ∀ k, ∀ u ∈ (env k).result, eligible chatId u = false) :
    (pollAux chatId env fuel st).choice = st.choice := by
  induction fuel generalizing st with
  | zero => rfl
  | succ f ih =>
    rw [pollAux]
    split
    · rw [ih]
      split
      · exact foldl_processUpdate_choice_of_not_eligible chatId _ _ (h _)
      · rfl
    · rfl

/-- C6: for every environment in which each `getUpdates` call returns, the
wait loop performs at most `maxAttempts = 40` polling iterations, and the
run then terminates either with the timeout branch or with one of the two
chosen branches. -/
theorem poll_loop_bounded_and_terminates (chatId : String)
    (env : Nat → UpdatesResp) (offset0 : Nat) :
    (runWaitLoop chatId env offset0).attempts ≤ maxAttempts ∧
      (afterWait (runWaitLoop chatId env offset0) = RunOutcome.timeout ∨
        afterWait (runWaitLoop chatId env offset0) = RunOutcome.chosen "wave" ∨
        afterWait (runWaitLoop chatId env offset0) = RunOutcome.chosen "particle") := by
  constructor
  · have h := pollAux_attempts_le chatId env maxAttempts (initialPollState offset0)
    simpa [initialPollState] using h
  · rcases pollAux_choice chatId env maxAttempts (initialPollState offset0)
        (Or.inl rfl) with h | h | h <;>
      simp [runWaitLoop, afterWait, h]

/-- C10: throughout the polling loop, `choice` is only ever `null`,
`'wave'` or `'particle'`; and if no delivered update carries a text message
from the chat whose id converts to `CHAT_ID`, the loop never sets it. -/
theorem choice_only_from_configured_chat (chatId : String)
    (env : Nat → UpdatesResp) (offset0 : Nat) :
    ((runWaitLoop chatId env offset0).choice = none ∨
      (runWaitLoop chatId env offset0).choice = some "wave" ∨
      (runWaitLoop chatId env offset0).choice = some "particle") ∧
      ((∀ k, ∀ u ∈ (env k).result, eligible chatId u = false) →
        (runWaitLoop chatId env offset0).choice = none) := by
  constructor
  · exact pollAux_choice chatId env maxAttempts (initialPollState offset0) (Or.inl rfl)
  · intro h
    exact pollAux_choice_of_not_eligible chatId env maxAttempts _ h

/-- Environment whose updates are all ineligible: a text from another chat
(id 7), a message from the configured chat (id 42) without text, and an
update without a message. -/
def ineligible_env : Nat → UpdatesResp := fun _ =>
  ⟨true, [⟨1, some ⟨some ⟨7⟩, some "wave"⟩⟩,
          ⟨2, some ⟨some ⟨42⟩, none⟩⟩,
          ⟨3, none⟩]⟩

/-- C10 corroboration at a concrete run: with only ineligible updates
delivered, the loop ends with `choice` still `null`. -/
theorem choice_only_from_configured_chat_witness :
    (runWaitLoop "42" ineligible_env 0).choice = none :=
  (choice_only_from_configured_chat "42" ineligible_env 0).2
    (fun k u hu => by
      have h : u = ⟨1, some ⟨some ⟨7⟩, some "wave"⟩⟩ ∨
          u = ⟨2, some ⟨some ⟨42⟩, none⟩⟩ ∨ u = ⟨3, none⟩ := by
        simpa [ineligible_env] using hu
      rcases h with rfl | rfl | rfl <;> decide)

/-- Environment for the C3 counterexample: the first poll returns an
invalid text from the configured chat, the second returns `wave`. -/
def banana_then_wave_env : Nat → UpdatesResp := fun k =>
  if k == 1 then ⟨true, [⟨1, some ⟨some ⟨42⟩, some "banana"⟩⟩]⟩
  else if k == 2 then ⟨true, [⟨2, some ⟨some ⟨42⟩, some "wave"⟩⟩]⟩
  else ⟨true, []⟩

/-- C3 counterexample: the polling loop does respond to an invalid input by
prompting for and awaiting a corrected one — on the text `banana` from the
configured chat it sends the corrective prompt, keeps polling, and accepts
the corrected `wave` on the next attempt. -/
theorem invalid_input_prompts_and_awaits_correction :
    (runWaitLoop "42" banana_then_wave_env 0).sent = [promptText] ∧
      (runWaitLoop "42" banana_then_wave_env 0).choice = some "wave" ∧
      (runWaitLoop "42" banana_then_wave_env 0).attempts = 2 := by
  decide

/-- C3 amended: no script re-attempts a failed external call, and no script
other than the retrocausal-telegram experiment performs any external call
at all; but that experiment's polling loop is a recovery path: an
unrecognized text (here `banana`) from the configured chat makes it send
the corrective prompt — leaving `choice` and `attempts` unchanged, so the
loop keeps awaiting a corrected choice within its 40-attempt budget. -/
theorem reprompt_recovery_path (st : PollState) (cid : Int) (uid : Nat) :
    processUpdate (toString cid) st ⟨uid, some ⟨some ⟨cid⟩, some "banana"⟩⟩
        = { st with offset := uid + 1, sent := st.sent ++ [promptText] } ∧
      scripts.all (fun s => s.name == retroName || !s.networkIO) = true := by
  constructor
  · have h1 : (toString cid == toString cid) = true := beq_self_eq_true _
    have h2 : (jsLowerTrim "banana" == "wave") = false := by decide
    have h3 : (jsLowerTrim "banana" == "волна") = false := by decide
    have h4 : (jsLowerTrim "banana" == "particle") = false := by decide
    have h5 : (jsLowerTrim "banana" == "частица") = false := by decide
    simp [processUpdate, h1, h2, h3, h4, h5]
  · decide

/-! ## The micro-benchmark harnesses (C1)

Each `bench` function is translated into the list of observable events it
performs, in order: a call of the benchmarked closure `fn`, a reading of
the high-resolution timer (`performance.now()` / `process.hrtime`), or the
printing of the result row (`hasOps` records whether the row contains an
ops/sec figure derived from the iteration count and the elapsed time).
A clock semantics (`clockRun`) assigns each trace the timer readings it
would observe if one call of `fn` costs `c` milliseconds. -/

inductive BEv where
  | callFn
  | readTimer
  | printRow (hasOps : Bool)
deriving DecidableEq, Repr

/-- The harness pattern the claim describes: `w` warmup calls, a timer
reading, `n` timed calls, a second timer reading, one printed row. -/
def harnessTrace (w n : Nat) (hasOps : Bool) : List BEv :=
  List.replicate w BEv.callFn ++ BEv.readTimer ::
    (List.replicate n BEv.callFn ++ [BEv.readTimer, BEv.printRow hasOps])

/-- `bench` of `src/unnamed/part_004` lines 19-31: 1000 warmup calls, a
`performance.now()` reading, `N = 10_000_000` timed calls, a second
reading, and a row containing both the elapsed ms and
`(N / (ms / 1000)).toExponential(2)` ops/sec. -/
def part004_benchTrace : List BEv :=
  List.replicate 1000 BEv.callFn ++ BEv.readTimer ::
    (List.replicate 10000000 BEv.callFn ++ [BEv.readTimer, BEv.printRow true])

/-- `bench` of `src/v8-ic-transitions/ic-states.js` lines 205-218: 1000
warmup calls, `N = 10_000_000` timed calls, row with ops/sec. -/
def icStates_benchTrace : List BEv :=
  List.replicate 1000 BEv.callFn ++ BEv.readTimer ::
    (List.replicate 10000000 BEv.callFn ++ [BEv.readTimer, BEv.printRow true])

/-- `bench` of `src/v8-generators/bench.js` lines 19-28: 500 warmup calls,
`N = 2_000_000` timed calls, row with ops/sec. -/
def generators_benchTrace : List BEv :=
  List.replicate 500 BEv.callFn ++ BEv.readTimer ::
    (List.replicate 2000000 BEv.callFn ++ [BEv.readTimer, BEv.printRow true])

/-- `bench` of `src/v8-object-iteration/bench.js` lines 21-34: 500 warmup
calls, `N = 2_000_000` timed calls, row with ops/sec. -/
def objectIteration_benchTrace : List BEv :=
  List.replicate 500 BEv.callFn ++ BEv.readTimer ::
    (List.replicate 2000000 BEv.callFn ++ [BEv.readTimer, BEv.printRow true])

/-- `bench` of `src/unnamed/part_005` lines 157-170: 1000 warmup calls,
`N = 5_000_000` timed calls, row with ops/sec. -/
def part005_benchTrace : List BEv :=
  List.replicate 1000 BEv.callFn ++ BEv.readTimer ::
    (List.replicate 5000000 BEv.callFn ++ [BEv.readTimer, BEv.printRow true])

/-- `bench` of `src/unnamed/part_006` lines 673-682 (the Proxy benchmark):
1000 warmup calls, `N = 5_000_000` timed calls, row with ops/sec. -/
def part006_proxy_benchTrace : List BEv :=
  List.replicate 1000 BEv.callFn ++ BEv.readTimer ::
    (List.replicate 5000000 BEv.callFn ++ [BEv.readTimer, BEv.printRow true])

/-- `bench` of `src/v8-loop-vs-array-methods/perf-test.js` lines 5-14:
100 warmup calls, `iterations` timed calls, but the printed row shows only
`elapsed.toFixed(2)` ms and the iteration count — no ops/sec figure. -/
def perfTest_benchTrace (iterations : Nat) : List BEv :=
  List.replicate 100 BEv.callFn ++ BEv.readTimer ::
    (List.replicate iterations BEv.callFn ++ [BEv.readTimer, BEv.printRow false])

/-- First `bench` of `src/v8-prototype-lookup/prototype-depth.js` lines
22-31: 1000 warmup calls, timed loop, but the row shows only elapsed ms —
no ops/sec figure. -/
def protoDepth22_benchTrace (iterations : Nat) : List BEv :=
  List.replicate 1000 BEv.callFn ++ BEv.readTimer ::
    (List.replicate iterations BEv.callFn ++ [BEv.readTimer, BEv.printRow false])

/-- Second `bench` of `src/v8-prototype-lookup/prototype-depth.js` lines
381-390: NO warmup — the first thing it does is read the timer — and the
row shows elapsed ms and an accumulated sum, no ops/sec. -/
def protoDepth381_benchTrace (iterations : Nat) : List BEv :=
  BEv.readTimer ::
    (List.replicate iterations BEv.callFn ++ [BEv.readTimer, BEv.printRow false])

/-- `bench` of `src/v8-map-vs-object/bench.js` lines 8-20: no warmup; the
loop times each single `fn()` call between two `process.hrtime.bigint()`
readings (5 times), then prints the median — there is no single timed
`N`-iteration loop and no ops/sec figure. -/
def mapVsObject_benchTrace : List BEv :=
  (List.replicate 5 [BEv.readTimer, BEv.callFn, BEv.readTimer]).flatten ++
    [BEv.printRow false]

/-- `bench` of `src/v8-single-vs-multi-return/bench.js` lines 8-16: 10000
warmup calls, `iterations` timed calls (invoked with `N = 20_000_000`),
but the printed row shows only `elapsed.toFixed(2)` ms — no ops/sec. -/
def singleVsMulti_benchTrace (iterations : Nat) : List BEv :=
  List.replicate 10000 BEv.callFn ++ BEv.readTimer ::
    (List.replicate iterations BEv.callFn ++ [BEv.readTimer, BEv.printRow false])

/-- `bench` of `src/unnamed/part_011` lines 4-10: 1000 warmup calls,
`iterations` timed calls (invoked with `N = 10000000`), but the printed
row shows only elapsed ms and the iteration count — no ops/sec. -/
def part011_benchTrace (iterations : Nat) : List BEv :=
  List.replicate 1000 BEv.callFn ++ BEv.readTimer ::
    (List.replicate iterations BEv.callFn ++ [BEv.readTimer, BEv.printRow false])

/-- `bench` of `src/unnamed/part_006` lines 281-290 (the hidden-classes
benchmark): 1000 warmup calls, `iterations` timed calls (invoked with
`N = 10_000_000`), but the printed row shows only elapsed ms — no
ops/sec. -/
def part006_hiddenClasses_benchTrace (iterations : Nat) : List BEv :=
  List.replicate 1000 BEv.callFn ++ BEv.readTimer ::
    (List.replicate iterations BEv.callFn ++ [BEv.readTimer, BEv.printRow false])

/-- `bench` of `src/unnamed/part_006` lines 22-31 (the try-catch
benchmark): `WARMUP = 1e5` warmup calls, `iterations` timed calls (default
`ITER = 1e7`) between two `performance.now()` readings; it derives
ops/sec but returns `{ name, elapsed, opsPerSec }` to its caller instead
of printing a row itself. -/
def part006_tryCatch_benchTrace (iterations : Nat) : List BEv :=
  List.replicate 100000 BEv.callFn ++ BEv.readTimer ::
    (List.replicate iterations BEv.callFn ++ [BEv.readTimer])

/-- `bench` of `src/unnamed/part_006` lines 592-600 (the factorial
benchmark): `Math.min(iterations, 1000)` warmup calls, `iterations` timed
calls (invoked with `ITER = 10000`) between two `process.hrtime.bigint()`
readings; it derives ops/sec but returns `{ name, ms, opsPerSec }` to its
caller instead of printing a row itself. -/
def part006_factorial_benchTrace (iterations : Nat) : List BEv :=
  List.replicate (min iterations 1000) BEv.callFn ++ BEv.readTimer ::
    (List.replicate iterations BEv.callFn ++ [BEv.readTimer])

/-- `bench` of `src/v8-closure-scope/scope-chain.js` lines 484-493: 500
warmup calls, `N = 2_000_000` timed calls, row with ops/sec. -/
def scopeChain_benchTrace : List BEv :=
  List.replicate 500 BEv.callFn ++ BEv.readTimer ::
    (List.replicate 2000000 BEv.callFn ++ [BEv.readTimer, BEv.printRow true])

/-- `benchLarge` of `src/v8-closure-scope/scope-chain.js` lines 581-590:
200 warmup calls, `N2 = 500_000` timed calls, row with ops/sec. -/
def scopeChain_benchLargeTrace : List BEv :=
  List.replicate 200 BEv.callFn ++ BEv.readTimer ::
    (List.replicate 500000 BEv.callFn ++ [BEv.readTimer, BEv.printRow true])

/-- `bench10` of `src/v8-ic-transitions/ic-states.js` lines 326-338: 1000
warmup calls, `N = 10_000_000` timed calls, row with ops/sec. -/
def icStates_bench10Trace : List BEv :=
  List.replicate 1000 BEv.callFn ++ BEv.readTimer ::
    (List.replicate 10000000 BEv.callFn ++ [BEv.readTimer, BEv.printRow true])

/-- `benchLarge` of `src/v8-object-iteration/bench.js` lines 156-165: 100
warmup calls, `N2 = 200_000` timed calls, row with ops/sec. -/
def objectIteration_benchLargeTrace : List BEv :=
  List.replicate 100 BEv.callFn ++ BEv.readTimer ::
    (List.replicate 200000 BEv.callFn ++ [BEv.readTimer, BEv.printRow true])

/-- `benchPersist` of `src/unnamed/part_005` lines 292-307: `setup()`
builds the object once (not a call of `fn`), then 1000 warmup calls,
`N2 = 1_000_000` timed calls, row with ops/sec. -/
def part005_benchPersistTrace : List BEv :=
  List.replicate 1000 BEv.callFn ++ BEv.readTimer ::
    (List.replicate 1000000 BEv.callFn ++ [BEv.readTimer, BEv.printRow true])

/-- The shape shared by the two record-returning part_006 benches: warmup,
one timed loop between two timer readings, but no printed row. -/
def timedNoPrintTrace (w n : Nat) : List BEv :=
  List.replicate w BEv.callFn ++ BEv.readTimer ::
    (List.replicate n BEv.callFn ++ [BEv.readTimer])

/-- The complete enumeration of the repository's benchmark harness
functions — every function named `bench`, `bench10`, `benchLarge` or
`benchPersist` in the tree (there are no others; the remaining scripts
time inline or only dump bytecode).  Harnesses whose iteration count is a
call-site argument are instantiated at their first documented call
(`perf-test.js` at array size 10, i.e. `iterations = 100000`). -/
def allBenchTraces : List (String × List BEv) :=
  [("unnamed/part_004:19 bench", part004_benchTrace),
   ("unnamed/part_005:157 bench", part005_benchTrace),
   ("unnamed/part_005:292 benchPersist", part005_benchPersistTrace),
   ("unnamed/part_006:22 bench", part006_tryCatch_benchTrace 10000000),
   ("unnamed/part_006:281 bench", part006_hiddenClasses_benchTrace 10000000),
   ("unnamed/part_006:592 bench", part006_factorial_benchTrace 10000),
   ("unnamed/part_006:673 bench", part006_proxy_benchTrace),
   ("unnamed/part_011:4 bench", part011_benchTrace 10000000),
   ("v8-closure-scope/scope-chain.js:484 bench", scopeChain_benchTrace),
   ("v8-closure-scope/scope-chain.js:581 benchLarge", scopeChain_benchLargeTrace),
   ("v8-generators/bench.js:19 bench", generators_benchTrace),
   ("v8-ic-transitions/ic-states.js:205 bench", icStates_benchTrace),
   ("v8-ic-transitions/ic-states.js:326 bench10", icStates_bench10Trace),
   ("v8-loop-vs-array-methods/perf-test.js:5 bench", perfTest_benchTrace 100000),
   ("v8-map-vs-object/bench.js:8 bench", mapVsObject_benchTrace),
   ("v8-object-iteration/bench.js:21 bench", objectIteration_benchTrace),
   ("v8-object-iteration/bench.js:156 benchLarge", objectIteration_benchLargeTrace),
   ("v8-prototype-lookup/prototype-depth.js:22 bench", protoDepth22_benchTrace 10000000),
   ("v8-prototype-lookup/prototype-depth.js:381 bench", protoDepth381_benchTrace 50000000),
   ("v8-single-vs-multi-return/bench.js:8 bench", singleVsMulti_benchTrace 20000000)]

/-- Timer semantics of a trace: one call of `fn` advances the clock by `c`
milliseconds; the result is the list of timer readings, in order. -/
def clockRun (c : ℚ) : List BEv → ℚ → List ℚ
  | [], _ => []
  | BEv.callFn :: es, t => clockRun c es (t + c)
  | BEv.readTimer :: es, t => t :: clockRun c es t
  | BEv.printRow _ :: es, t => clockRun c es t

/-- The elapsed time a two-reading trace measures (`ms = end - start`). -/
def elapsedOf (c : ℚ) (tr : List BEv) : ℚ :=
  match clockRun c tr 0 with
  | [t1, t2] => t2 - t1
  | _ => 0

/-- `N / (ms / 1000)` — the ops/sec figure of e.g. part_004 line 28. -/
def opsPerSec (n : Nat) (ms : ℚ) : ℚ :=
  n / (ms / 1000)

/-- Leading-call parser: the number of `callFn` events before the first
other event, and the remainder of the trace. -/
def stripCalls : List BEv → Nat × List BEv
  | BEv.callFn :: es => ((stripCalls es).1 + 1, (stripCalls es).2)
  | es => (0, es)

/-- Parse a trace against the harness pattern: warmup-call count, timed
phase between exactly two timer readings, and whether the single printed
row carries an ops/sec figure. -/
def harnessShape (tr : List BEv) : Option (Nat × Nat × Bool) :=
  match (stripCalls tr).2 with
  | BEv.readTimer :: rest =>
    match (stripCalls rest).2 with
    | [BEv.readTimer, BEv.printRow b] => some ((stripCalls tr).1, (stripCalls rest).1, b)
    | _ => none
  | _ => none

/-- The pattern claimed of every `bench`: some warmup (at least one call)
before the first timer reading, one timed loop between the two readings,
and a printed row that derives ops/sec. -/
def c1PatternB (tr : List BEv) : Bool :=
  match harnessShape tr with
  | some (w, _, b) => decide (0 < w) && b
  | none => false

/-- `stripCalls` counts exactly a replicated `callFn` prefix. -/
theorem stripCalls_replicate_cons (k : Nat) (e : BEv) (es : List BEv)
    (he : e ≠ BEv.callFn) :
    stripCalls (List.replicate k BEv.callFn ++ e :: es) = (k, e :: es) := by
  induction k with
  | zero =>
    rw [List.replicate_zero, List.nil_append]
    cases e with
    | callFn => exact absurd rfl he
    | readTimer => rfl
    | printRow b => rfl
  | succ k ih =>
    rw [List.replicate_succ, List.cons_append]
    show ((stripCalls (List.replicate k BEv.callFn ++ e :: es)).1 + 1,
        (stripCalls (List.replicate k BEv.callFn ++ e :: es)).2) = (k + 1, e :: es)
    rw [ih]

/-- The parser recovers the parameters of every pattern-shaped trace. -/
theorem harnessShape_harnessTrace (w n : Nat) (b : Bool) :
    harnessShape (harnessTrace w n b) = some (w, n, b) := by
  have h1 : stripCalls (harnessTrace w n b)
      = (w, BEv.readTimer ::
          (List.replicate n BEv.callFn ++ [BEv.readTimer, BEv.printRow b])) :=
    stripCalls_replicate_cons w _ _ (by decide)
  have h2 : stripCalls (List.replicate n BEv.callFn ++ [BEv.readTimer, BEv.printRow b])
      = (n, [BEv.readTimer, BEv.printRow b]) :=
    stripCalls_replicate_cons n _ _ (by decide)
  simp [harnessShape, h1, h2]

/-- The claimed pattern, evaluated on every pattern-shaped trace. -/
theorem c1PatternB_harnessTrace (w n : Nat) (b : Bool) :
    c1PatternB (harnessTrace w n b) = (decide (0 < w) && b) := by
  simp [c1PatternB, harnessShape_harnessTrace]

/-- The clock advances by `k * c` over `k` calls of `fn`. -/
theorem clockRun_replicate_callFn (c : ℚ) (k : Nat) (es : List BEv) (t : ℚ) :
    clockRun c (List.replicate k BEv.callFn ++ es) t
      = clockRun c es (t + (k : ℚ) * c) := by
  induction k generalizing t with
  | zero => simp
  | succ k ih =>
    rw [List.replicate_succ, List.cons_append]
    show clockRun c (List.replicate k BEv.callFn ++ es) (t + c) = _
    rw [ih]
    congr 1
    push_cast
    ring

/-- A pattern-shaped trace records exactly two timer readings, `n * c`
apart: the measured elapsed time covers the `n` timed calls and excludes
the `w` warmup calls. -/
theorem elapsedOf_harnessTrace (c : ℚ) (w n : Nat) (b : Bool) :
    elapsedOf c (harnessTrace w n b) = (n : ℚ) * c := by
  have h : clockRun c (harnessTrace w n b) 0
      = [0 + (w : ℚ) * c, 0 + (w : ℚ) * c + (n : ℚ) * c] := by
    unfold harnessTrace
    rw [clockRun_replicate_callFn]
    show (0 + (w : ℚ) * c) :: clockRun c
        (List.replicate n BEv.callFn ++ [BEv.readTimer, BEv.printRow b])
        (0 + (w : ℚ) * c) = _
    rw [clockRun_replicate_callFn]
    rfl
  unfold elapsedOf
  rw [h]
  ring

/-- A warmup-then-timed-loop trace with no printed row does not parse as
the harness pattern. -/
theorem harnessShape_timedNoPrintTrace (w n : Nat) :
    harnessShape (timedNoPrintTrace w n) = none := by
  have h1 : stripCalls (timedNoPrintTrace w n)
      = (w, BEv.readTimer :: (List.replicate n BEv.callFn ++ [BEv.readTimer])) :=
    stripCalls_replicate_cons w _ _ (by decide)
  have h2 : stripCalls (List.replicate n BEv.callFn ++ [BEv.readTimer])
      = (n, [BEv.readTimer]) :=
    stripCalls_replicate_cons n _ _ (by decide)
  simp [harnessShape, h1, h2]

/-- So the claimed pattern fails for the record-returning benches. -/
theorem c1PatternB_timedNoPrintTrace (w n : Nat) :
    c1PatternB (timedNoPrintTrace w n) = false := by
  simp [c1PatternB, harnessShape_timedNoPrintTrace]

/-- The record-returning benches also measure exactly the `n` timed calls,
excluding warmup. -/
theorem elapsedOf_timedNoPrintTrace (c : ℚ) (w n : Nat) :
    elapsedOf c (timedNoPrintTrace w n) = (n : ℚ) * c := by
  have h : clockRun c (timedNoPrintTrace w n) 0
      = [0 + (w : ℚ) * c, 0 + (w : ℚ) * c + (n : ℚ) * c] := by
    unfold timedNoPrintTrace
    rw [clockRun_replicate_callFn]
    show (0 + (w : ℚ) * c) :: clockRun c
        (List.replicate n BEv.callFn ++ [BEv.readTimer]) (0 + (w : ℚ) * c) = _
    rw [clockRun_replicate_callFn]
    rfl
  unfold elapsedOf
  rw [h]
  ring

/-- C1 counterexample: `bench` of `v8-map-vs-object/bench.js` is a
benchmark harness that does not follow the claimed pattern — it reads the
timer before any warmup call, times individual calls rather than one
`N`-iteration loop, and prints a median with no ops/sec figure. -/
theorem mapVsObject_bench_not_harness_pattern :
    c1PatternB mapVsObject_benchTrace = false := by
  decide

/-- C1 amended: eleven of the repository's twenty benchmark harness
functions (part_004's bench; part_005's bench and benchPersist;
part_006's Proxy bench; scope-chain's bench and benchLarge; generators'
bench; ic-states' bench and bench10; object-iteration's bench and
benchLarge) follow the full claimed pattern — a fixed number of warmup
calls, one timed `N`-loop between two readings of a high-resolution
timer, one printed row deriving ops/sec from `N` and the elapsed time —
and for every warmup-then-timed-loop harness the measured elapsed time is
`n * c`, independent of the warmup count `w`, with ops/sec equal to
`n / (elapsed / 1000)`.  The other nine deviate: the benches of
perf-test.js, prototype-depth.js line 22, single-vs-multi-return,
part_006 line 281 and part_011 print elapsed ms without deriving ops/sec
(for every iteration count); prototype-depth.js line 381 performs no
warmup; part_006 lines 22 and 592 derive ops/sec but return the row to
their caller instead of printing it; and map-vs-object times each call
individually and prints a median of 5 runs. -/
theorem bench_harness_pattern_amended (c : ℚ) (n w : Nat) (b : Bool) :
    (allBenchTraces.map fun p => c1PatternB p.2)
        = [true, true, true, false, false, false, true, false, true, true,
           true, true, true, false, false, true, true, false, false, false] ∧
      c1PatternB (perfTest_benchTrace n) = false ∧
      c1PatternB (protoDepth22_benchTrace n) = false ∧
      c1PatternB (protoDepth381_benchTrace n) = false ∧
      c1PatternB (singleVsMulti_benchTrace n) = false ∧
      c1PatternB (part011_benchTrace n) = false ∧
      c1PatternB (part006_hiddenClasses_benchTrace n) = false ∧
      c1PatternB (part006_tryCatch_benchTrace n) = false ∧
      c1PatternB (part006_factorial_benchTrace n) = false ∧
      elapsedOf c (harnessTrace w n b) = (n : ℚ) * c ∧
      elapsedOf c (timedNoPrintTrace w n) = (n : ℚ) * c ∧
      opsPerSec n (elapsedOf c (harnessTrace w n b)) = (n : ℚ) / ((n : ℚ) * c / 1000) := by
  refine ⟨?_, ?_, ?_, ?_, ?_, ?_, ?_, ?_, ?_, ?_, ?_, ?_⟩
  · simp only [allBenchTraces, List.map_cons, List.map_nil,
      show part004_benchTrace = harnessTrace 1000 10000000 true from rfl,
      show part005_benchTrace = harnessTrace 1000 5000000 true from rfl,
      show part005_benchPersistTrace = harnessTrace 1000 1000000 true from rfl,
      show part006_tryCatch_benchTrace 10000000 = timedNoPrintTrace 100000 10000000 from rfl,
      show part006_hiddenClasses_benchTrace 10000000 = harnessTrace 1000 10000000 false from rfl,
      show part006_factorial_benchTrace 10000 = timedNoPrintTrace (min 10000 1000) 10000 from rfl,
      show part006_proxy_benchTrace = harnessTrace 1000 5000000 true from rfl,
      show part011_benchTrace 10000000 = harnessTrace 1000 10000000 false from rfl,
      show scopeChain_benchTrace = harnessTrace 500 2000000 true from rfl,
      show scopeChain_benchLargeTrace = harnessTrace 200 500000 true from rfl,
      show generators_benchTrace = harnessTrace 500 2000000 true from rfl,
      show icStates_benchTrace = harnessTrace 1000 10000000 true from rfl,
      show icStates_bench10Trace = harnessTrace 1000 10000000 true from rfl,
      show perfTest_benchTrace 100000 = harnessTrace 100 100000 false from rfl,
      show objectIteration_benchTrace = harnessTrace 500 2000000 true from rfl,
      show objectIteration_benchLargeTrace = harnessTrace 100 200000 true from rfl,
      show protoDepth22_benchTrace 10000000 = harnessTrace 1000 10000000 false from rfl,
      show protoDepth381_benchTrace 50000000 = harnessTrace 0 50000000 false from rfl,
      show singleVsMulti_benchTrace 20000000 = harnessTrace 10000 20000000 false from rfl,
      c1PatternB_harnessTrace, c1PatternB_timedNoPrintTrace]
    decide
  · rw [show perfTest_benchTrace n = harnessTrace 100 n false from rfl,
      c1PatternB_harnessTrace]
    decide
  · rw [show protoDepth22_benchTrace n = harnessTrace 1000 n false from rfl,
      c1PatternB_harnessTrace]
    decide
  · rw [show protoDepth381_benchTrace n = harnessTrace 0 n false from rfl,
      c1PatternB_harnessTrace]
    decide
  · rw [show singleVsMulti_benchTrace n = harnessTrace 10000 n false from rfl,
      c1PatternB_harnessTrace]
    decide
  · rw [show part011_benchTrace n = harnessTrace 1000 n false from rfl,
      c1PatternB_harnessTrace]
    decide
  · rw [show part006_hiddenClasses_benchTrace n = harnessTrace 1000 n false from rfl,
      c1PatternB_harnessTrace]
    decide
  · rw [show part006_tryCatch_benchTrace n = timedNoPrintTrace 100000 n from rfl,
      c1PatternB_timedNoPrintTrace]
  · rw [show part006_factorial_benchTrace n = timedNoPrintTrace (min n 1000) n from rfl,
      c1PatternB_timedNoPrintTrace]
  · exact elapsedOf_harnessTrace c w n b
  · exact elapsedOf_timedNoPrintTrace c w n
  · rw [elapsedOf_harnessTrace]
    rfl
